import Mathlib

/-!
Verification of the conflict-monitoring core: severity derivation at
ingestion, the event store's filtered query, the periodic monitoring
cycle, the AI analysis fallbacks, and the broadcast hub, embedded
shallowly from the TypeScript sources (`server/routes.ts`,
`server/websocket.ts`, `server/ai-analysis.ts`, `shared/schema.ts`).
Timestamps are modelled as integers (milliseconds since the Unix epoch);
confidence and risk values as rationals.
-/

namespace ConflictMonitor

/-- The four severity levels of `shared/schema.ts`
(`'low' | 'medium' | 'high' | 'critical'`). -/
inductive Severity
  | low
  | medium
  | high
  | critical
deriving DecidableEq, Repr

/-- `determineSeverity` from `server/routes.ts` (lines 31-36): fixed
fatality thresholds mapped to a severity level. -/
def determineSeverity (fatalities : Int) : Severity :=
  if fatalities ≥ 50 then .critical
  else if fatalities ≥ 10 then .high
  else if fatalities ≥ 1 then .medium
  else .low

/-- A conflict event as stored (`conflictEvents` table of
`shared/schema.ts`), restricted to the fields the monitoring core
reads. `eventDate` is in milliseconds since the epoch; `region` is
nullable in the schema. -/
structure ConflictEvent where
  id : Nat
  eventDate : Int
  country : String
  region : Option String
  location : String
  eventType : String
  fatalities : Int
  severity : Severity
deriving DecidableEq, Repr

/-- Modelled from the spec: the Event Store implementation
(`server/storage.ts`, `storage.getConflictEvents`) is not among the
provided sources, so its query descriptor is taken from the spec's
`FilterSpec` ("all fields optional/combinable with AND semantics ...
result `limit` (default 1000, caps result size after sort)"), mirroring
`conflictFiltersSchema` of `shared/schema.ts`. Date bounds are
inclusive (`eventDate ≥ start`, `eventDate ≤ end`). -/
structure FilterSpec where
  severity : Option (List Severity) := none
  eventTypes : Option (List String) := none
  countries : Option (List String) := none
  region : Option String := none
  startDate : Option Int := none
  endDate : Option Int := none
  limit : Nat := 1000

/-- Modelled from the spec: the conjunction of all supplied `FilterSpec`
predicates over one event ("applies all supplied predicates
conjunctively"). -/
def matchesFilters (f : FilterSpec) (e : ConflictEvent) : Bool :=
  (match f.severity with
   | none => true
   | some ss => decide (e.severity ∈ ss)) &&
  (match f.eventTypes with
   | none => true
   | some ts => decide (e.eventType ∈ ts)) &&
  (match f.countries with
   | none => true
   | some cs => decide (e.country ∈ cs)) &&
  (match f.region with
   | none => true
   | some r => decide (e.region = some r)) &&
  (match f.startDate with
   | none => true
   | some d => decide (d ≤ e.eventDate)) &&
  (match f.endDate with
   | none => true
   | some d => decide (e.eventDate ≤ d))

/-- Ordering used to model the store's sort on pairs of insertion index
and event: a pair precedes another when its `eventDate` is later, or the
dates are equal and its insertion index is not larger (date-descending,
stable by insertion order). -/
def rankLe (a b : Nat × ConflictEvent) : Prop :=
  b.2.eventDate < a.2.eventDate ∨ (a.2.eventDate = b.2.eventDate ∧ a.1 ≤ b.1)

instance : DecidableRel rankLe := fun a b =>
  inferInstanceAs (Decidable (b.2.eventDate < a.2.eventDate
    ∨ (a.2.eventDate = b.2.eventDate ∧ a.1 ≤ b.1)))

instance : IsTotal (Nat × ConflictEvent) rankLe :=
  ⟨fun a b => by unfold rankLe; omega⟩

instance : IsTrans (Nat × ConflictEvent) rankLe :=
  ⟨fun a b c hab hbc => by unfold rankLe at hab hbc ⊢; omega⟩

/-- Modelled from the spec: the store's `query` with insertion indices
kept. Every stored event satisfying all supplied predicates is retained
with its position, the result is sorted by `eventDate` descending with
insertion index breaking ties ("ties broken by store insertion order,
stable"), and truncated to `limit`. -/
def queryRanked (store : List ConflictEvent) (f : FilterSpec) :
    List (Nat × ConflictEvent) :=
  ((store.enum.filter (fun p => matchesFilters f p.2)).insertionSort rankLe).take
    f.limit

/-- Modelled from the spec: `query(FilterSpec)` as exposed to callers
(`storage.getConflictEvents`): the events of `queryRanked` without their
insertion indices. -/
def query (store : List ConflictEvent) (f : FilterSpec) : List ConflictEvent :=
  (queryRanked store f).map Prod.snd

/-- Milliseconds in 24 hours, `24 * 60 * 60 * 1000` in
`startRealTimeMonitoring` (`server/websocket.ts` line 66). -/
def dayMs : Int := 86400000

/-- The truncation performed by
`new Date(ms).toISOString().split('T')[0]` in `startRealTimeMonitoring`:
the timestamp is cut back to the start (UTC midnight) of its calendar
day before being used as the query's `startDate`. -/
def dayFloor (t : Int) : Int := t - t % dayMs

/-- The filter built by the Monitoring Scheduler on each tick
(`server/websocket.ts` lines 63-67): limit 50, severity high or
critical, `startDate` the calendar-day truncation of `now - 24h`, and no
end date. -/
def monitorFilter (now : Int) : FilterSpec :=
  { severity := some [.high, .critical]
    startDate := some (dayFloor (now - dayMs))
    limit := 50 }

/-- The store query the Scheduler performs on each tick
(`storage.getConflictEvents` applied to `monitorFilter`). -/
def monitorQuery (store : List ConflictEvent) (now : Int) : List ConflictEvent :=
  query store (monitorFilter now)

/-- The structured verdict type `ConflictAnalysis` of
`server/ai-analysis.ts` (lines 7-14). `confidence` is in `[0,1]` and
`riskLevel` on a 1-10 scale; both are modelled as rationals. -/
structure ConflictAnalysis where
  severity : Severity
  confidence : ℚ
  keyInsights : List String
  recommendations : List String
  emergingPatterns : List String
  riskLevel : ℚ
deriving DecidableEq, Repr

/-- The parsed JSON body of a successful external Analyzer response as
read by `analyzeConflictEvents` (`server/ai-analysis.ts` lines 73-82):
every field may be absent (the code applies `||` fallbacks and
`Array.isArray` checks). A present-but-falsy numeric field (`0`) is
modelled as `none`, matching the `||` fallback; a missing or
non-severity string likewise. -/
structure RawVerdict where
  severity : Option Severity := none
  confidence : Option ℚ := none
  keyInsights : Option (List String) := none
  recommendations : Option (List String) := none
  emergingPatterns : Option (List String) := none
  riskLevel : Option ℚ := none
deriving Repr

/-- The verdict `analyzeConflictEvents` returns for an empty batch
(`server/ai-analysis.ts` lines 26-35), before any external call is
made. -/
def emptyBatchAnalysis : ConflictAnalysis :=
  { severity := .low
    confidence := 1
    keyInsights := ["No conflict events to analyze"]
    recommendations := ["Continue monitoring for emerging threats"]
    emergingPatterns := []
    riskLevel := 1 }

/-- The safe default verdict `analyzeConflictEvents` returns when the
external Analyzer call fails (`server/ai-analysis.ts` lines 83-93). -/
def failureAnalysis : ConflictAnalysis :=
  { severity := .medium
    confidence := 3/10
    keyInsights := ["Analysis temporarily unavailable due to AI service error"]
    recommendations := ["Continue monitoring manually"]
    emergingPatterns := []
    riskLevel := 5 }

/-- Clamping and defaulting applied to a successful raw response
(`server/ai-analysis.ts` lines 75-82): `severity || 'low'`,
`confidence` defaulted to 0.5 then clamped to `[0,1]`, array fields
defaulted to `[]`, `riskLevel` defaulted to 5 then clamped to
`[1,10]`. -/
def normalizeVerdict (raw : RawVerdict) : ConflictAnalysis :=
  { severity := raw.severity.getD .low
    confidence := max 0 (min 1 (raw.confidence.getD (1/2)))
    keyInsights := raw.keyInsights.getD []
    recommendations := raw.recommendations.getD []
    emergingPatterns := raw.emergingPatterns.getD []
    riskLevel := max 1 (min 10 (raw.riskLevel.getD 5)) }

/-- `ConflictAIAnalyzer.analyzeConflictEvents` (`server/ai-analysis.ts`
lines 25-94). The external OpenAI call is abstracted as its outcome
`call` (a parsed verdict on success, `Except.error` on error or
timeout). The function always returns a `ConflictAnalysis` — every
failure path is caught internally, so nothing is raised to the caller:
an empty batch short-circuits to `emptyBatchAnalysis` before the
external call, a failed call yields `failureAnalysis`, and a successful
call is normalized. -/
def analyzeConflictEvents (events : List ConflictEvent)
    (call : Except Unit RawVerdict) : ConflictAnalysis :=
  if events.length = 0 then emptyBatchAnalysis
  else
    match call with
    | .ok raw => normalizeVerdict raw
    | .error _ => failureAnalysis

/-- The fallback alert string of `generateConflictAlert`
(`server/ai-analysis.ts` lines 196-199), used when the external call
fails or returns empty content. Severity upper-casing is modelled by a
fixed name per constructor. -/
def severityUpper : Severity → String
  | .low => "LOW"
  | .medium => "MEDIUM"
  | .high => "HIGH"
  | .critical => "CRITICAL"

/-- Fallback text of `generateConflictAlert`. -/
def fallbackAlert (e : ConflictEvent) : String :=
  severityUpper e.severity ++ " conflict event reported in " ++ e.location
    ++ ", " ++ e.country

/-- `ConflictAIAnalyzer.generateConflictAlert` (`server/ai-analysis.ts`
lines 168-201) with the external call abstracted as its outcome: the
returned content when non-empty, the fallback text when the content is
empty (`||` on a falsy string) or the call fails (caught internally). -/
def generateConflictAlert (e : ConflictEvent) (call : Except Unit String) :
    String :=
  match call with
  | .ok s => if s = "" then fallbackAlert e else s
  | .error _ => fallbackAlert e

/-- The tagged broadcast message union of `server/websocket.ts`
(`WebSocketMessage` with its three `type` values and the payloads built
in `startRealTimeMonitoring` and `setupWebSocket`). -/
inductive BroadcastMessage
  | analysisUpdate (analysis : ConflictAnalysis) (eventCount : Nat)
      (regions : List String)
  | conflictAlert (event : ConflictEvent) (alert : String)
      (severity : Severity) (location : String)
  | heartbeat (status : String) (clientCount : Nat)
deriving DecidableEq, Repr

/-- Position of a message type within a monitoring cycle (used to state
the per-cycle ordering `analysis_update*, conflict_alert*,
heartbeat`). -/
def msgStage : BroadcastMessage → Nat
  | .analysisUpdate _ _ _ => 0
  | .conflictAlert _ _ _ _ => 1
  | .heartbeat _ _ => 2

/-- Whether a message is a heartbeat. -/
def isHeartbeat : BroadcastMessage → Bool
  | .heartbeat _ _ => true
  | _ => false

/-- The event carried by a `conflict_alert` message, if any. -/
def alertEvent : BroadcastMessage → Option ConflictEvent
  | .conflictAlert e _ _ _ => some e
  | _ => none

/-- `Array.from(new Set(recentEvents.map(e => e.region).filter(Boolean)))`
(`server/websocket.ts` line 78): the distinct non-null, non-empty
regions in order of first occurrence (a JS `Set` keeps insertion
order). -/
def distinctRegions (events : List ConflictEvent) : List String :=
  ((events.filterMap (fun e => e.region)).filter (fun r => r ≠ "")).foldl
    (fun acc r => if r ∈ acc then acc else acc ++ [r]) []

/-- One monitoring cycle of `startRealTimeMonitoring`
(`server/websocket.ts` lines 61-115), as the list of messages it
broadcasts in order. `storeCall` is the outcome of
`storage.getConflictEvents` (the `try` block catches a store error, logs
it, and broadcasts nothing further in that cycle); `batchCall` and
`alertCalls` are the outcomes of the external Analyzer calls, which are
caught inside `analyzeConflictEvents` and `generateConflictAlert` and so
never abort the cycle. On success: an `analysis_update` if the query
matched anything, then a `conflict_alert` for each of the first at most
3 critical events of the matched list, then always one heartbeat. -/
def runMonitoringCycle (storeCall : Except Unit (List ConflictEvent))
    (clientCount : Nat) (batchCall : Except Unit RawVerdict)
    (alertCalls : ConflictEvent → Except Unit String) :
    List BroadcastMessage :=
  match storeCall with
  | .error _ => []
  | .ok recentEvents =>
    (if 0 < recentEvents.length then
      [.analysisUpdate (analyzeConflictEvents recentEvents batchCall)
          recentEvents.length (distinctRegions recentEvents)]
        ++ ((recentEvents.filter (fun e => decide (e.severity = .critical))).take
              3).map
            (fun e => .conflictAlert e (generateConflictAlert e (alertCalls e))
              e.severity (e.location ++ ", " ++ e.country))
    else [])
      ++ [.heartbeat "monitoring" clientCount]

/-- The events carried by the `conflict_alert` messages of a message
list, in order. -/
def alertedEvents (msgs : List BroadcastMessage) : List ConflictEvent :=
  msgs.filterMap alertEvent

/-- A subscriber connection as the Broadcast Hub sees it: its identity,
whether its `readyState` is `OPEN`, and whether a send to it fails
(surfacing through the `ws` error event). -/
structure Subscriber where
  id : Nat
  isOpen : Bool
  failsSend : Bool
deriving DecidableEq, Repr

/-- The subscribers a single `broadcast` call delivers the message to
(`server/websocket.ts` lines 47-57): `sendToClient` attempts the send
exactly for clients whose `readyState` is `OPEN`; a client whose send
fails does not receive the message but does not stop the iteration over
the remaining clients. -/
def broadcastDelivered (clients : List Subscriber) : List Nat :=
  (clients.filter (fun s => s.isOpen && !s.failsSend)).map (fun s => s.id)

/-- The client set after a `broadcast` call and the resulting `ws`
events settle (`server/websocket.ts` lines 35-43): a send failure fires
the error handler, which removes that client from `this.clients`; no
failure is thrown back to the caller of `broadcast`. -/
def broadcastSurvivors (clients : List Subscriber) : List Subscriber :=
  clients.filter (fun s => !(s.isOpen && s.failsSend))

/-- The messages of one cycle a subscriber receives, given that it stays
registered for the whole cycle: each `broadcast` sends to it exactly
when it is open, in publication order. -/
def cycleDeliveredTo (s : Subscriber) (msgs : List BroadcastMessage) :
    List BroadcastMessage :=
  msgs.filter (fun _ => s.isOpen && !s.failsSend)

/-- `setInterval` schedule of `startRealTimeMonitoring`
(`server/websocket.ts` line 115): the k-th callback invocation happens
30000 ms after the (k-1)-th, starting 30000 ms after registration. The
async callback body starts a monitoring cycle unconditionally — the
class holds no running-cycle flag — so the k-th cycle starts exactly at
the k-th invocation. -/
def cycleStartTime (k : Nat) : Nat := 30000 * (k + 1)

/-- Completion time of the k-th cycle, whose body (awaited store and
Analyzer calls) takes `dur k` milliseconds. -/
def cycleFinishTime (dur : Nat → Nat) (k : Nat) : Nat :=
  cycleStartTime k + dur k

/-- Two distinct cycles overlap when each starts before the other
finishes. -/
def cyclesOverlap (dur : Nat → Nat) (j k : Nat) : Prop :=
  j ≠ k ∧ cycleStartTime k < cycleFinishTime dur j
    ∧ cycleStartTime j < cycleFinishTime dur k

/-- Cycle durations in which the first cycle's awaited calls take 40
seconds (longer than the 30-second tick interval) and later cycles are
immediate. -/
def slowFirstCycle : Nat → Nat
  | 0 => 40000
  | _ => 0

/-- Concrete high-severity event used in witnesses: 12 fatalities on day
2 of the epoch. -/
def eHigh : ConflictEvent :=
  { id := 1
    eventDate := 200000000
    country := "Atlantis"
    region := some "North"
    location := "Harbor"
    eventType := "Battles"
    fatalities := 12
    severity := .high }

/-- Concrete low-severity event used in witnesses. -/
def eLow : ConflictEvent :=
  { id := 0
    eventDate := 100000000
    country := "Byzantium"
    region := none
    location := "Forum"
    eventType := "Riots"
    fatalities := 0
    severity := .low }

/-- Concrete critical event used in witnesses: 60 fatalities. -/
def eCritical : ConflictEvent :=
  { id := 2
    eventDate := 150000000
    country := "Atlantis"
    region := some "South"
    location := "Citadel"
    eventType := "Battles"
    fatalities := 60
    severity := .critical }

/-- Two-event store used by the C2 witness. -/
def storeW : List ConflictEvent := [eLow, eHigh]

/-- Filter used by the C2 witness: high or critical severity, limit 2. -/
def filterW : FilterSpec := { severity := some [.high, .critical], limit := 2 }

/-- Event used by the C3 counterexample: severity high, dated exactly at
the UTC midnight that `startRealTimeMonitoring` truncates the query's
start bound to — 36 hours before the tick below, hence outside the last
24 hours. -/
def eStale : ConflictEvent :=
  { id := 7
    eventDate := 86400000
    country := "Atlantis"
    region := some "North"
    location := "Harbor"
    eventType := "Battles"
    fatalities := 12
    severity := .high }

/-- Tick time of the C3 counterexample: 2.5 days after the epoch
(60 hours), so `now - 24h` is 1.5 days and its calendar-day floor is day
1 — 36 hours before the tick. -/
def nowC3 : Int := 216000000

/-- Open subscriber whose sends fail, used by the C9 witness. -/
def subA : Subscriber := { id := 0, isOpen := true, failsSend := true }

/-- Open healthy subscriber, used by the C7 and C9 witnesses. -/
def subB : Subscriber := { id := 1, isOpen := true, failsSend := false }

/-- Client set of the C9 witness: a failing and a healthy subscriber. -/
def clientsW : List Subscriber := [subA, subB]

/-! ## Helper lemmas about the store query -/

theorem mem_query_matches {store : List ConflictEvent} {f : FilterSpec}
    {e : ConflictEvent} (he : e ∈ query store f) : matchesFilters f e = true := by
  rcases List.mem_map.1 he with ⟨p, hp, rfl⟩
  unfold queryRanked at hp
  have h1 := List.mem_of_mem_take hp
  have h2 := (List.mem_insertionSort rankLe).1 h1
  exact (List.mem_filter.1 h2).2

theorem queryRanked_pairwise (store : List ConflictEvent) (f : FilterSpec) :
    (queryRanked store f).Pairwise rankLe := by
  unfold queryRanked
  exact List.Pairwise.sublist (List.take_sublist _ _)
    (List.sorted_insertionSort rankLe _)

theorem queryRanked_nodup_fst (store : List ConflictEvent) (f : FilterSpec) :
    ((queryRanked store f).map Prod.fst).Nodup := by
  have h0 : (store.enum.map Prod.fst).Nodup := List.nodup_enum_map_fst store
  have h1 : ((store.enum.filter (fun p => matchesFilters f p.2)).map
      Prod.fst).Nodup :=
    h0.sublist ((List.filter_sublist _).map Prod.fst)
  have h2 : (((store.enum.filter (fun p => matchesFilters f p.2)).insertionSort
      rankLe).map Prod.fst).Nodup :=
    ((List.perm_insertionSort rankLe _).map Prod.fst).nodup_iff.2 h1
  unfold queryRanked
  exact h2.sublist ((List.take_sublist _ _).map Prod.fst)

theorem queryRanked_pairwise_strict (store : List ConflictEvent)
    (f : FilterSpec) :
    (queryRanked store f).Pairwise (fun a b =>
      b.2.eventDate < a.2.eventDate
        ∨ (a.2.eventDate = b.2.eventDate ∧ a.1 < b.1)) := by
  have hne : (queryRanked store f).Pairwise (fun a b => a.1 ≠ b.1) :=
    List.pairwise_map.1 (queryRanked_nodup_fst store f)
  refine ((queryRanked_pairwise store f).and hne).imp ?_
  intro a b h
  rcases h with ⟨h1, h2⟩
  unfold rankLe at h1
  rcases h1 with h1 | ⟨heq, hle⟩
  · exact Or.inl h1
  · exact Or.inr ⟨heq, lt_of_le_of_ne hle h2⟩

theorem queryRanked_get {store : List ConflictEvent} {f : FilterSpec}
    {p : Nat × ConflictEvent} (hp : p ∈ queryRanked store f) :
    store[p.1]? = some p.2 := by
  unfold queryRanked at hp
  have h1 := List.mem_of_mem_take hp
  have h2 := (List.mem_insertionSort rankLe).1 h1
  exact List.mem_enum_iff_getElem?.1 (List.mem_filter.1 h2).1

theorem query_length_le (store : List ConflictEvent) (f : FilterSpec) :
    (query store f).length ≤ f.limit := by
  unfold query queryRanked
  rw [List.length_map]
  exact List.length_take_le _ _

theorem query_sorted (store : List ConflictEvent) (f : FilterSpec) :
    (query store f).Pairwise (fun a b => b.eventDate ≤ a.eventDate) := by
  unfold query
  refine List.pairwise_map.2 ?_
  refine (queryRanked_pairwise store f).imp ?_
  intro a b h
  unfold rankLe at h
  omega

theorem enum_filter_map_snd (store : List ConflictEvent) (f : FilterSpec) :
    (store.enum.filter (fun p => matchesFilters f p.2)).map Prod.snd
      = store.filter (fun e => matchesFilters f e) := by
  conv_rhs => rw [← List.enum_map_snd store]
  rw [List.filter_map]
  rfl

theorem query_complete {store : List ConflictEvent} {f : FilterSpec}
    (hlen : (store.filter (fun e => matchesFilters f e)).length ≤ f.limit)
    {e : ConflictEvent} (he : e ∈ store) (hm : matchesFilters f e = true) :
    e ∈ query store f := by
  have he2 : e ∈ store.enum.map Prod.snd := by
    rw [List.enum_map_snd]; exact he
  rcases List.mem_map.1 he2 with ⟨p, hpenum, hpe⟩
  have hpf : p ∈ store.enum.filter (fun p => matchesFilters f p.2) :=
    List.mem_filter.2 ⟨hpenum, by rw [hpe]; exact hm⟩
  have hlen2 : ((store.enum.filter (fun p => matchesFilters f p.2)).insertionSort
      rankLe).length ≤ f.limit := by
    rw [List.length_insertionSort]
    have hmapeq := congrArg List.length (enum_filter_map_snd store f)
    rw [List.length_map] at hmapeq
    omega
  have hq : queryRanked store f
      = (store.enum.filter (fun p => matchesFilters f p.2)).insertionSort
          rankLe := by
    unfold queryRanked
    exact List.take_of_length_le hlen2
  unfold query
  rw [hq]
  exact List.mem_map.2 ⟨p, (List.mem_insertionSort rankLe).2 hpf, hpe⟩

/-! ## Claim theorems -/

/-- C1: at ingestion, `determineSeverity` derives the stored severity
from the fatalities count by the fixed thresholds — at least 50 gives
critical, at least 10 gives high, at least 1 gives medium, anything
below gives low — and the fatality counts [0, 3, 12, 60, 9] receive
severities [low, medium, high, critical, medium]. -/
theorem C1_severity_thresholds :
    (∀ f : Int,
      (determineSeverity f = .critical ↔ 50 ≤ f)
      ∧ (determineSeverity f = .high ↔ 10 ≤ f ∧ f < 50)
      ∧ (determineSeverity f = .medium ↔ 1 ≤ f ∧ f < 10)
      ∧ (determineSeverity f = .low ↔ f < 1))
    ∧ [(0 : Int), 3, 12, 60, 9].map determineSeverity
        = [.low, .medium, .high, .critical, .medium] := by
  constructor
  · intro f
    unfold determineSeverity
    split_ifs with h1 h2 h3 <;>
      refine ⟨?_, ?_, ?_, ?_⟩ <;> simp_all <;> omega
  · decide

/-- C1 witness: the threshold characterization applied at concrete
fatality counts. -/
theorem C1_severity_witness :
    determineSeverity 60 = .critical ∧ determineSeverity 0 = .low :=
  ⟨((C1_severity_thresholds.1 60).1).mpr (by decide),
   ((C1_severity_thresholds.1 0).2.2.2).mpr (by decide)⟩

/-- C2: every event returned by `query` satisfies all supplied filter
predicates (AND semantics); the index-carrying result is sorted by
`eventDate` descending with ties broken by strictly increasing insertion
index, each index being the event's position in the store; and the
result length never exceeds the `FilterSpec` limit. -/
theorem C2_query_filters_sorts_truncates (store : List ConflictEvent)
    (f : FilterSpec) :
    (∀ e ∈ query store f, matchesFilters f e = true)
    ∧ (queryRanked store f).Pairwise (fun a b =>
        b.2.eventDate < a.2.eventDate
          ∨ (a.2.eventDate = b.2.eventDate ∧ a.1 < b.1))
    ∧ (∀ p ∈ queryRanked store f, store[p.1]? = some p.2)
    ∧ (query store f).length ≤ f.limit :=
  ⟨fun _ he => mem_query_matches he,
   queryRanked_pairwise_strict store f,
   fun _ hp => queryRanked_get hp,
   query_length_le store f⟩

/-- C2 witness: on the concrete two-event store, the returned event
satisfies the filter and the result respects the limit. -/
theorem C2_query_witness :
    matchesFilters filterW eHigh = true
      ∧ (query storeW filterW).length ≤ filterW.limit := by
  have h := C2_query_filters_sorts_truncates storeW filterW
  exact ⟨h.1 eHigh (by decide), h.2.2.2⟩

/-- An event matches the Scheduler's per-tick filter exactly when its
severity is high or critical and its date is at or after the calendar-day
floor of `now - 24h`. -/
theorem monitorFilter_matches (now : Int) (e : ConflictEvent) :
    matchesFilters (monitorFilter now) e = true
      ↔ ((e.severity = .high ∨ e.severity = .critical)
          ∧ dayFloor (now - dayMs) ≤ e.eventDate) := by
  unfold matchesFilters monitorFilter
  simp [List.mem_cons]

/-- C3 counterexample: at the concrete tick time `nowC3` (60 hours after
the epoch), the Scheduler's query returns the high-severity event
`eStale` even though its `eventDate` is 36 hours before the tick — i.e.
outside the 24 hours preceding the tick — because the query's start
bound is truncated to a calendar day. -/
theorem C3_window_counterexample :
    eStale ∈ monitorQuery [eStale] nowC3
    ∧ eStale.eventDate < nowC3 - dayMs
    ∧ eStale.severity = .high := by
  refine ⟨by decide, by decide, rfl⟩

/-- C3 (amended): on every tick, the Scheduler's store query selects
exactly the events with severity high or critical whose `eventDate` is
at or after UTC midnight of the calendar day containing `tick - 24h`
(not the exact 24-hour cutoff, and with no upper date bound), capped at
50 results: every returned event satisfies that predicate, at most 50
are returned, and when at most 50 stored events satisfy it, every one of
them is returned. -/
theorem C3_monitor_query_spec (store : List ConflictEvent) (now : Int) :
    (∀ e ∈ monitorQuery store now,
      (e.severity = .high ∨ e.severity = .critical)
        ∧ dayFloor (now - dayMs) ≤ e.eventDate)
    ∧ (monitorQuery store now).length ≤ 50
    ∧ ((store.filter (fun e =>
          matchesFilters (monitorFilter now) e)).length ≤ 50 →
        ∀ e ∈ store, matchesFilters (monitorFilter now) e = true →
          e ∈ monitorQuery store now) := by
  refine ⟨?_, query_length_le store (monitorFilter now), ?_⟩
  · intro e he
    exact (monitorFilter_matches now e).1 (mem_query_matches he)
  · intro hlen e he hm
    exact query_complete hlen he hm

/-- C3 witness: concrete instantiation of the amended query
characterization on a two-event store at the counterexample tick. -/
theorem C3_monitor_query_witness :
    ((eHigh.severity = .high ∨ eHigh.severity = .critical)
      ∧ dayFloor (nowC3 - dayMs) ≤ eHigh.eventDate)
    ∧ eHigh ∈ monitorQuery [eLow, eHigh] nowC3 := by
  have h := C3_monitor_query_spec [eLow, eHigh] nowC3
  exact ⟨h.1 eHigh (by decide), h.2.2 (by decide) eHigh (by decide) (by decide)⟩

/-- The non-heartbeat prefix of a successful cycle contains no
heartbeat: the `analysis_update` and the mapped `conflict_alert`
messages filter to nothing under `isHeartbeat`. -/
theorem cycle_prefix_no_heartbeat (evs : List ConflictEvent)
    (b : Except Unit RawVerdict) (a : ConflictEvent → Except Unit String) :
    (([BroadcastMessage.analysisUpdate (analyzeConflictEvents evs b)
        evs.length (distinctRegions evs)]
      ++ ((evs.filter (fun e => decide (e.severity = .critical))).take 3).map
          (fun e => BroadcastMessage.conflictAlert e
            (generateConflictAlert e (a e)) e.severity
            (e.location ++ ", " ++ e.country))).filter
      isHeartbeat) = [] := by
  rw [List.filter_append]
  rw [List.filter_map]
  have h1 : (isHeartbeat ∘ fun e => BroadcastMessage.conflictAlert e
      (generateConflictAlert e (a e)) e.severity
      (e.location ++ ", " ++ e.country)) = fun _ => false := by
    funext e; rfl
  rw [h1]
  simp [isHeartbeat]

/-- C4 counterexample: a cycle in which the store query fails publishes
no messages at all — in particular zero heartbeat messages rather than
exactly one — because the heartbeat broadcast sits inside the same `try`
block that catches the store error. -/
theorem C4_store_failure_counterexample :
    ((runMonitoringCycle (.error ()) 3 (.error ())
        (fun _ => .error ())).filter isHeartbeat).length ≠ 1
    ∧ runMonitoringCycle (.error ()) 3 (.error ()) (fun _ => .error ()) = [] :=
  ⟨by decide, rfl⟩

/-- C4 (amended): every cycle whose store query succeeds publishes
exactly one heartbeat, regardless of whether the query matched anything
and regardless of Analyzer outcomes (Analyzer failures are caught inside
the analysis functions); a cycle with zero matching events publishes
exactly the heartbeat and no `analysis_update` or `conflict_alert`; but
a cycle whose store query fails ends early and publishes nothing,
heartbeat included. -/
theorem C4_heartbeat_per_cycle (evs : List ConflictEvent) (c : Nat)
    (b : Except Unit RawVerdict) (a : ConflictEvent → Except Unit String) :
    ((runMonitoringCycle (.ok evs) c b a).filter isHeartbeat).length = 1
    ∧ (evs = [] →
        runMonitoringCycle (.ok evs) c b a = [.heartbeat "monitoring" c])
    ∧ runMonitoringCycle (.error ()) c b a = [] := by
  refine ⟨?_, ?_, rfl⟩
  · simp only [runMonitoringCycle]
    rw [List.filter_append]
    by_cases h : 0 < evs.length
    · rw [if_pos h, cycle_prefix_no_heartbeat evs b a]
      rfl
    · rw [if_neg h]
      rfl
  · intro h
    subst h
    rfl

/-- C4 witness: a successful cycle over an empty matched set publishes
exactly one heartbeat and nothing else. -/
theorem C4_heartbeat_witness :
    ((runMonitoringCycle (.ok []) 2 (.error ())
        (fun _ => .error ())).filter isHeartbeat).length = 1
    ∧ runMonitoringCycle (.ok []) 2 (.error ()) (fun _ => .error ())
        = [.heartbeat "monitoring" 2] := by
  have h := C4_heartbeat_per_cycle [] 2 (.error ()) (fun _ => .error ())
  exact ⟨h.1, h.2.1 rfl⟩

/-- Extracting the alerted events from the mapped `conflict_alert`
messages recovers the mapped event list. -/
theorem alertedEvents_map (l : List ConflictEvent)
    (a : ConflictEvent → Except Unit String) :
    alertedEvents (l.map (fun e => BroadcastMessage.conflictAlert e
        (generateConflictAlert e (a e)) e.severity
        (e.location ++ ", " ++ e.country))) = l := by
  unfold alertedEvents
  rw [List.filterMap_map]
  have h1 : (alertEvent ∘ fun e => BroadcastMessage.conflictAlert e
      (generateConflictAlert e (a e)) e.severity
      (e.location ++ ", " ++ e.country)) = some := by
    funext e; rfl
  rw [h1, List.filterMap_some]

/-- C6: in every cycle whose store query succeeds, the events carried by
`conflict_alert` messages are exactly the first at most three events of
the matched list (in the order the store returned it) whose severity is
critical, so at most 3 alerts are published; and every `conflict_alert`
message of the cycle carries a critical matched event together with the
alert text obtained from the Analyzer's single-event capability on that
event. -/
theorem C6_critical_alerts (evs : List ConflictEvent) (c : Nat)
    (b : Except Unit RawVerdict) (a : ConflictEvent → Except Unit String) :
    alertedEvents (runMonitoringCycle (.ok evs) c b a)
      = (evs.filter (fun e => decide (e.severity = .critical))).take 3
    ∧ (alertedEvents (runMonitoringCycle (.ok evs) c b a)).length ≤ 3
    ∧ (∀ m ∈ runMonitoringCycle (.ok evs) c b a,
        ∀ e al sv loc, m = BroadcastMessage.conflictAlert e al sv loc →
          e ∈ evs ∧ e.severity = .critical
            ∧ al = generateConflictAlert e (a e)) := by
  have hmain : alertedEvents (runMonitoringCycle (.ok evs) c b a)
      = (evs.filter (fun e => decide (e.severity = .critical))).take 3 := by
    simp only [runMonitoringCycle]
    by_cases h : 0 < evs.length
    · rw [if_pos h]
      have happ : ∀ l1 l2 : List BroadcastMessage,
          alertedEvents (l1 ++ l2) = alertedEvents l1 ++ alertedEvents l2 :=
        fun l1 l2 => List.filterMap_append l1 l2 alertEvent
      rw [happ, happ, alertedEvents_map]
      simp [alertedEvents, alertEvent]
    · rw [if_neg h]
      have h3 : evs = [] := List.length_eq_zero.1 (by omega)
      subst h3
      rfl
  refine ⟨hmain, ?_, ?_⟩
  · rw [hmain]
    exact le_trans (List.length_take_le _ _) (le_refl 3)
  · intro m hm e al sv loc hme
    subst hme
    simp only [runMonitoringCycle] at hm
    by_cases h : 0 < evs.length
    · rw [if_pos h] at hm
      rcases List.mem_append.1 hm with hm1 | hm2
      · rcases List.mem_append.1 hm1 with hm3 | hm4
        · simp at hm3
        · rcases List.mem_map.1 hm4 with ⟨e2, he2, heq⟩
          injection heq with he hal hsv hloc
          subst he
          have he2m := List.mem_filter.1 (List.mem_of_mem_take he2)
          exact ⟨he2m.1, of_decide_eq_true he2m.2, hal.symm⟩
      · simp at hm2
    · rw [if_neg h] at hm
      simp at hm

/-- C6 witness: on a concrete matched set with one critical event, the
single published alert carries that event, and it is critical. -/
theorem C6_alerts_witness :
    alertedEvents (runMonitoringCycle (.ok [eCritical, eHigh]) 1 (.error ())
        (fun _ => .error ())) = [eCritical]
    ∧ eCritical.severity = .critical := by
  have h := C6_critical_alerts [eCritical, eHigh] 1 (.error ())
    (fun _ => .error ())
  constructor
  · rw [h.1]
    decide
  · exact (h.2.2 (BroadcastMessage.conflictAlert eCritical
      (generateConflictAlert eCritical (.error ())) eCritical.severity
      (eCritical.location ++ ", " ++ eCritical.country)) (by decide)
      eCritical (generateConflictAlert eCritical (.error ()))
      eCritical.severity (eCritical.location ++ ", " ++ eCritical.country)
      rfl).2.1

/-- Every message stage is at most the heartbeat stage. -/
theorem msgStage_le_two (m : BroadcastMessage) : msgStage m ≤ 2 := by
  cases m <;> simp [msgStage]

/-- C7: a subscriber that stays connected (open, sends succeeding)
through a cycle receives every message the cycle publishes, and the
cycle's messages are staged in the order `analysis_update*,
conflict_alert*, heartbeat`: along the published list the message stage
never decreases. -/
theorem C7_cycle_message_order (sc : Except Unit (List ConflictEvent))
    (c : Nat) (b : Except Unit RawVerdict)
    (a : ConflictEvent → Except Unit String) (s : Subscriber)
    (hopen : s.isOpen = true) (hok : s.failsSend = false) :
    cycleDeliveredTo s (runMonitoringCycle sc c b a)
        = runMonitoringCycle sc c b a
    ∧ (runMonitoringCycle sc c b a).Pairwise
        (fun m1 m2 => msgStage m1 ≤ msgStage m2) := by
  constructor
  · unfold cycleDeliveredTo
    rw [hopen, hok]
    simp
  · cases sc with
    | error u => exact List.Pairwise.nil
    | ok evs =>
      simp only [runMonitoringCycle]
      rw [List.pairwise_append]
      refine ⟨?_, ?_, ?_⟩
      · by_cases h : 0 < evs.length
        · rw [if_pos h, List.pairwise_append]
          refine ⟨?_, ?_, ?_⟩
          · simp
          · refine List.pairwise_map.2 (List.pairwise_of_forall_mem_list ?_)
            intro x hx y hy
            simp [msgStage]
          · intro m1 h1 m2 h2
            rcases List.mem_map.1 h2 with ⟨e, he, heq⟩
            subst heq
            simp at h1
            subst h1
            simp [msgStage]
        · rw [if_neg h]
          exact List.Pairwise.nil
      · simp
      · intro m1 h1 m2 h2
        simp at h2
        subst h2
        exact msgStage_le_two m1

/-- C7 witness: concrete cycle delivered in full and in stage order to a
healthy subscriber. -/
theorem C7_order_witness :
    cycleDeliveredTo subB (runMonitoringCycle (.ok [eCritical]) 1 (.error ())
        (fun _ => .error ()))
      = runMonitoringCycle (.ok [eCritical]) 1 (.error ()) (fun _ => .error ())
    ∧ (runMonitoringCycle (.ok [eCritical]) 1 (.error ())
        (fun _ => .error ())).Pairwise
        (fun m1 m2 => msgStage m1 ≤ msgStage m2) :=
  C7_cycle_message_order (.ok [eCritical]) 1 (.error ())
    (fun _ => .error ()) subB rfl rfl

/-- C8: for a non-empty batch, a failed external Analyzer call makes
`analyzeConflictEvents` return — not raise — the safe default verdict
(severity medium, confidence 0.3, placeholder text), and the cycle's
resulting `analysis_update` message is well-formed, carrying exactly
that default verdict. -/
theorem C8_batch_failure_default (events : List ConflictEvent)
    (h : events ≠ []) (c : Nat) (a : ConflictEvent → Except Unit String) :
    analyzeConflictEvents events (.error ()) = failureAnalysis
    ∧ failureAnalysis.severity = .medium
    ∧ failureAnalysis.confidence = 3/10
    ∧ (runMonitoringCycle (.ok events) c (.error ()) a).head?
        = some (.analysisUpdate failureAnalysis events.length
            (distinctRegions events)) := by
  have hne : ¬events.length = 0 := fun hh => h (List.length_eq_zero.1 hh)
  have h1 : analyzeConflictEvents events (.error ()) = failureAnalysis := by
    unfold analyzeConflictEvents
    rw [if_neg hne]
  refine ⟨h1, rfl, rfl, ?_⟩
  simp only [runMonitoringCycle]
  rw [if_pos (by omega)]
  rw [h1]
  rfl

/-- C8 witness: the default verdict on a concrete one-event batch. -/
theorem C8_failure_witness :
    analyzeConflictEvents [eHigh] (.error ()) = failureAnalysis :=
  (C8_batch_failure_default [eHigh] (by decide) 0 (fun _ => .error ())).1

/-- C9: during one `broadcast` call, subscriber B (open, healthy)
receives the message even though subscriber A's send fails, and A is
removed from the client set by the error handler; `broadcast` itself
returns normally, so the failure never reaches the publishing
Scheduler. -/
theorem C9_subscriber_isolation (clients : List Subscriber)
    (A B : Subscriber) (_hA : A ∈ clients) (hB : B ∈ clients)
    (hAopen : A.isOpen = true) (hAfail : A.failsSend = true)
    (hBopen : B.isOpen = true) (hBok : B.failsSend = false) :
    B.id ∈ broadcastDelivered clients
    ∧ A ∉ broadcastSurvivors clients := by
  constructor
  · refine List.mem_map.2 ⟨B, List.mem_filter.2 ⟨hB, ?_⟩, rfl⟩
    rw [hBopen, hBok]
    rfl
  · intro hmem
    have h2 := (List.mem_filter.1 hmem).2
    rw [hAopen, hAfail] at h2
    simp at h2

/-- C9 witness: with one failing and one healthy subscriber registered,
the healthy one is delivered to and the failing one is removed. -/
theorem C9_isolation_witness :
    subB.id ∈ broadcastDelivered clientsW
    ∧ subA ∉ broadcastSurvivors clientsW :=
  C9_subscriber_isolation clientsW subA subB (by decide) (by decide)
    rfl rfl rfl rfl

/-- C10: applied to an empty event list, `analyzeConflictEvents`
short-circuits before the external call — the result is the same fixed
verdict for every outcome of that call: severity low, confidence 1.0,
the fixed insight and recommendation texts, no emerging patterns, risk
level 1 — and this verdict differs from the failure default (severity
medium, confidence 0.3). -/
theorem C10_empty_batch_fixed_verdict (call : Except Unit RawVerdict) :
    analyzeConflictEvents [] call = emptyBatchAnalysis
    ∧ emptyBatchAnalysis.severity = .low
    ∧ emptyBatchAnalysis.confidence = 1
    ∧ emptyBatchAnalysis.keyInsights = ["No conflict events to analyze"]
    ∧ emptyBatchAnalysis.recommendations
        = ["Continue monitoring for emerging threats"]
    ∧ emptyBatchAnalysis.emergingPatterns = []
    ∧ emptyBatchAnalysis.riskLevel = 1
    ∧ emptyBatchAnalysis ≠ failureAnalysis :=
  ⟨rfl, rfl, rfl, rfl, rfl, rfl, rfl, by decide⟩

/-- C10 witness: the fixed empty-batch verdict at a concrete failed
call outcome. -/
theorem C10_empty_batch_witness :
    analyzeConflictEvents [] (.error ()) = emptyBatchAnalysis :=
  (C10_empty_batch_fixed_verdict (.error ())).1

/-- C5: `startRealTimeMonitoring` schedules cycles with a bare
`setInterval` and no running-cycle flag, so when the first cycle's
awaited calls take 40 seconds against the 30-second interval, the second
cycle starts at t = 60s while the first is still running until t = 70s —
the two cycles overlap, violating the required mutual exclusion. -/
theorem C5_overlapping_cycles : cyclesOverlap slowFirstCycle 0 1 :=
  ⟨by decide, by decide, by decide⟩

end ConflictMonitor
